import Mathlib

/-!
Shallow embedding of the PoloDB page handler
(`src/polodb_core/page/page_handler.rs`) and of the collaborator
interfaces it uses (page cache, journal manager, header/data page
wrappers, document serializer).  The coordinator's functions are
translated line by line from the Rust source; the collaborators, whose
sources are not part of this repository snapshot, are modelled from the
specification and marked as such in their doc comments.

Stateful Rust methods (`&mut self`, returning `DbResult<T>`) become Lean
functions `PHState J → Except DbErr T × PHState J`: the state is always
returned, also on error, mirroring the fact that a failed Rust call
leaves `self` in whatever state the failing step produced.  Rust panics
(`unimplemented!()`, `.unwrap()` on `None`) are modelled as the
distinguished error values `DbErr.notImplemented` and `DbErr.panicked`.
-/

namespace PoloDB

/-- Error kinds of the page handler, following the spec's taxonomy.
`notImplemented` stands for the source's unconditional aborts on the
free-list overflow path, `panicked` for other aborts such as an
unchecked unwrap. -/
inductive DbErr where
  | ioError
  | corruptStore
  | decodeError
  | notImplemented
  | panicked
  | invariantViolation
  deriving DecidableEq

/-- Journal transaction kinds (`TransactionType` in the source). -/
inductive TransactionType where
  | read
  | write
  deriving DecidableEq

/-- Transaction state of the coordinator (`TransactionState` in the source). -/
inductive TransactionState where
  | noTrans
  | user
  | userAuto
  | dbAuto
  deriving DecidableEq

/-- `DB_INIT_BLOCK_COUNT` from the source. -/
def DB_INIT_BLOCK_COUNT : Nat := 16

/-- `PRESERVE_WRAPPER_MIN_REMAIN_SIZE` from the source. -/
def PRESERVE_WRAPPER_MIN_REMAIN_SIZE : Nat := 16

/-- Modelled from the spec: `HEADER_FREE_LIST_MAX_SIZE` is a
header-wrapper-defined constant (the header wrapper source is not in
this snapshot).  Its concrete value is irrelevant to the claims; we fix
a representative positive value. -/
def HEADER_FREE_LIST_MAX_SIZE : Nat := 500

/-- Modelled from the spec: fixed per-page metadata overhead of the
slotted data-page layout (the data-page wrapper source is not in this
snapshot).  The exact byte layout is declared an implementation choice
by the spec; only the accounting discipline matters. -/
def DATA_PAGE_HEADER_SIZE : Nat := 16

/-- Typed content of the header page (page 0), as exposed by the header
page wrapper: null-page bar, free-list size, free-list overflow page id,
and the free-list entries. -/
structure HeaderData where
  null_page_bar : Nat
  free_list_size : Nat
  free_list_page_id : Nat
  free_list_content : List Nat
  deriving DecidableEq

/-- Typed content of a slotted data page: the slot array.  A slot is
`some bytes` when live and `none` when tombstoned (the spec requires
removals to leave tombstones so indices stay stable). -/
structure DataPageData where
  bars : List (Option (List Nat))
  deriving DecidableEq

/-- Content of a raw page, abstracting the byte layout (which the spec
leaves collaborator-defined): a header page, a data page, or
uninitialized bytes. -/
inductive PageContent where
  | header (h : HeaderData)
  | data (d : DataPageData)
  | uninit
  deriving DecidableEq

/-- A raw page: (page-id, page-size, content). -/
structure RawPage where
  page_id : Nat
  page_size : Nat
  content : PageContent
  deriving DecidableEq

/-- Modelled from the spec: the page cache (its source is not in this
snapshot).  The spec's contract is only "returns the last-inserted
version or nothing"; an association list with most-recent-first lookup
realizes it without eviction. -/
def insert_to_cache (c : List (Nat × RawPage)) (p : RawPage) : List (Nat × RawPage) :=
  (p.page_id, p) :: c

/-- Modelled from the spec: cache lookup, returning the last-inserted
version of the page or nothing. -/
def get_from_cache (c : List (Nat × RawPage)) (pid : Nat) : Option RawPage :=
  (c.find? (fun e => e.1 = pid)).map (fun e => e.2)

/-- Set index `i` of a list to `v`, padding with zeros when the list is
shorter: models writing a fixed-offset u32 field of the header page. -/
def listSetD (l : List Nat) (i : Nat) (v : Nat) : List Nat :=
  if i < l.length then l.set i v
  else l ++ List.replicate (i - l.length) 0 ++ [v]

/-- Header page wrapper: a typed view over the header page, keeping the
page identity so that it can be turned back into a raw page. -/
structure HeaderPageWrapper where
  page_id : Nat
  page_size : Nat
  h : HeaderData
  deriving DecidableEq

namespace HeaderPageWrapper

/-- Modelled from the spec: `HeaderPageWrapper::from_raw_page` decodes
the header fields from a raw page (header wrapper source not in this
snapshot); a non-header page decodes to all-zero fields. -/
def from_raw_page (p : RawPage) : HeaderPageWrapper :=
  match p.content with
  | .header h => ⟨p.page_id, p.page_size, h⟩
  | _ => ⟨p.page_id, p.page_size, ⟨0, 0, 0, []⟩⟩

/-- The raw page underlying the wrapper (the source's `wrapper.0`). -/
def toRaw (w : HeaderPageWrapper) : RawPage :=
  ⟨w.page_id, w.page_size, .header w.h⟩

def get_free_list_size (w : HeaderPageWrapper) : Nat := w.h.free_list_size

def set_free_list_size (w : HeaderPageWrapper) (n : Nat) : HeaderPageWrapper :=
  { w with h := { w.h with free_list_size := n } }

def get_free_list_page_id (w : HeaderPageWrapper) : Nat := w.h.free_list_page_id

def get_free_list_content (w : HeaderPageWrapper) (i : Nat) : Nat :=
  w.h.free_list_content.getD i 0

def set_free_list_content (w : HeaderPageWrapper) (i : Nat) (v : Nat) : HeaderPageWrapper :=
  { w with h := { w.h with free_list_content := listSetD w.h.free_list_content i v } }

def get_null_page_bar (w : HeaderPageWrapper) : Nat := w.h.null_page_bar

def set_null_page_bar (w : HeaderPageWrapper) (n : Nat) : HeaderPageWrapper :=
  { w with h := { w.h with null_page_bar := n } }

end HeaderPageWrapper

/-- Modelled from the spec: the data page wrapper (its source is not in
this snapshot), a typed view over a slotted data page.  Slots are
`some bytes` (live) or `none` (tombstone). -/
structure DataPageWrapper where
  page_id : Nat
  page_size : Nat
  bars : List (Option (List Nat))
  deriving DecidableEq

namespace DataPageWrapper

/-- Modelled from the spec: `DataPageWrapper::init(pid, page_size)`, a
fresh data page with no slots. -/
def init (pid : Nat) (page_size : Nat) : DataPageWrapper :=
  ⟨pid, page_size, []⟩

/-- Modelled from the spec: `DataPageWrapper::from_raw`; uninitialized
bytes decode to an empty slot array. -/
def from_raw (p : RawPage) : DataPageWrapper :=
  match p.content with
  | .data d => ⟨p.page_id, p.page_size, d.bars⟩
  | _ => ⟨p.page_id, p.page_size, []⟩

/-- The raw page embedding all wrapper metadata (spec: after
`consume_page` the raw page reconstructs the wrapper via `from_raw`). -/
def toRaw (w : DataPageWrapper) : RawPage :=
  ⟨w.page_id, w.page_size, .data ⟨w.bars⟩⟩

/-- The source's `borrow_page`. -/
def borrow_page (w : DataPageWrapper) : RawPage := w.toRaw

/-- The source's `consume_page`. -/
def consume_page (w : DataPageWrapper) : RawPage := w.toRaw

def pid (w : DataPageWrapper) : Nat := w.page_id

/-- Slot count, tombstones included (the source's `bar_len`). -/
def bar_len (w : DataPageWrapper) : Nat := w.bars.length

/-- Bytes consumed by one slot: a 2-byte bar entry plus the payload of a
live slot. -/
def slotCost (s : Option (List Nat)) : Nat :=
  2 + (match s with | some b => b.length | none => 0)

/-- Modelled from the spec: bytes still available for a new `put`,
accounted so that a `put` of `len` bytes consumes `len + 2` of it. -/
def remain_size (w : DataPageWrapper) : Nat :=
  w.page_size - DATA_PAGE_HEADER_SIZE - (w.bars.map slotCost).sum

/-- Modelled from the spec: append a record to the page. -/
def put (w : DataPageWrapper) (bytes : List Nat) : DataPageWrapper :=
  { w with bars := w.bars ++ [some bytes] }

/-- Modelled from the spec: read the record at a slot; absent for a
tombstone or an out-of-range index. -/
def get (w : DataPageWrapper) (i : Nat) : Option (List Nat) :=
  (w.bars[i]?).bind (fun s => s)

/-- Modelled from the spec: remove the record at a slot, leaving a
tombstone so that other slot indices stay stable. -/
def remove (w : DataPageWrapper) (i : Nat) : DataPageWrapper :=
  { w with bars := w.bars.set i none }

/-- Modelled from the spec: a page is empty when it has no live slot. -/
def is_empty (w : DataPageWrapper) : Bool :=
  w.bars.all (fun s => s.isNone)

end DataPageWrapper

/-- Modelled from the spec: a document is an opaque value with a byte
serialization (the serializer is an external collaborator). -/
structure Document where
  bytes : List Nat
  deriving DecidableEq

/-- Modelled from the spec: serialize a document (`Document::to_bytes`,
with an error channel). -/
def Document.to_bytes (d : Document) : Except DbErr (List Nat) := .ok d.bytes

/-- Modelled from the spec: parse a document from bytes
(`Document::from_bytes`, with an error channel). -/
def Document.from_bytes (b : List Nat) : Except DbErr Document := .ok ⟨b⟩

/-- A data ticket: (page-id, slot-index) locator of a stored document.
The slot index is a `u16` in the source. -/
structure DataTicket where
  pid : Nat
  index : Nat
  deriving DecidableEq

/-- The source's `AutoStartResult`. -/
structure AutoStartResult where
  auto_start : Bool
  deriving DecidableEq

/-- Interface of the journal manager collaborator, as used by the page
handler.  The page handler is parametric in the journal's behavior, so
theorems about it hold for every journal implementation.  Mutating
operations return the result together with the successor journal state,
also on error. -/
structure JournalOps (J : Type) where
  append_raw_page : J → RawPage → Except DbErr Unit × J
  read_page : J → Nat → Except DbErr (Option RawPage)
  start_transaction : J → TransactionType → Except DbErr Unit × J
  upgrade_read_transaction_to_write : J → Except DbErr Unit × J
  commit : J → Except DbErr Unit × J
  rollback : J → Except DbErr Unit × J
  len : J → Nat
  transaction_type : J → Option TransactionType

/-- The page handler's state: the fields of the `PageHandler` struct.
The main file is a list of page contents indexed by page id; the
free-bucket map (`data_page_map`, a `BTreeMap<u32, Vec<u32>>`) is a
key-sorted association list. -/
structure PHState (J : Type) where
  file : List PageContent
  last_commit_db_size : Nat
  page_size : Nat
  page_count : Nat
  page_cache : List (Nat × RawPage)
  journal : J
  data_page_map : List (Nat × List Nat)
  transaction_state : TransactionState

/-- Lowest-key lookup of the free-bucket map: the first entry whose key
is at least `k` (the source's `range_mut((Included(k), Unbounded)).next()`;
on a key-sorted list the first such entry has the lowest key). -/
def mapFindGE (m : List (Nat × List Nat)) (k : Nat) : Option (Nat × List Nat) :=
  m.find? (fun e => k ≤ e.1)

/-- Lookup of the free-bucket map (`BTreeMap::get_mut`). -/
def mapGet (m : List (Nat × List Nat)) (k : Nat) : Option (List Nat) :=
  (m.find? (fun e => e.1 = k)).map (fun e => e.2)

/-- Replace the value stored under an existing key (the in-place
mutation through `range_mut` / `get_mut`). -/
def mapSetValue (m : List (Nat × List Nat)) (k : Nat) (v : List Nat) : List (Nat × List Nat) :=
  m.map (fun e => if e.1 = k then (e.1, v) else e)

/-- Remove a key (`BTreeMap::remove`). -/
def mapRemove (m : List (Nat × List Nat)) (k : Nat) : List (Nat × List Nat) :=
  m.filter (fun e => ! (e.1 = k : Bool))

/-- Insert a fresh key keeping the list key-sorted (`BTreeMap::insert`
for a key not present). -/
def mapInsertSorted (m : List (Nat × List Nat)) (k : Nat) (v : List Nat) : List (Nat × List Nat) :=
  match m with
  | [] => [(k, v)]
  | e :: rest =>
    if k ≤ e.1 then (k, v) :: e :: rest
    else e :: mapInsertSorted rest k v

/-- Key-sortedness of the free-bucket map (strictly ascending keys, the
`BTreeMap` iteration order). -/
def mapSortedB : List (Nat × List Nat) → Bool
  | [] => true
  | e :: rest => rest.all (fun e2 => e.1 < e2.1) && mapSortedB rest

/-- Read a page from the main file (`RawPage::read_from_file` at offset
`pid * page_size`); a read past the end of the file is a corrupt-store
error, per the spec. -/
def file_read_page {J : Type} (s : PHState J) (pid : Nat) : Except DbErr RawPage :=
  match s.file.get? pid with
  | some c => .ok ⟨pid, s.page_size, c⟩
  | none => .error .corruptStore

/-- `PageHandler::pipeline_write_page`: append to the journal first; on
success insert into the page cache. -/
def pipeline_write_page {J : Type} (ops : JournalOps J) (s : PHState J) (page : RawPage) :
    Except DbErr Unit × PHState J :=
  match ops.append_raw_page s.journal page with
  | (.error e, j) => (.error e, { s with journal := j })
  | (.ok _, j) =>
    (.ok (), { s with journal := j, page_cache := insert_to_cache s.page_cache page })

/-- `PageHandler::pipeline_read_page`: cache, then journal, then main
file; each miss populates the cache. -/
def pipeline_read_page {J : Type} (ops : JournalOps J) (s : PHState J) (page_id : Nat) :
    Except DbErr RawPage × PHState J :=
  match get_from_cache s.page_cache page_id with
  | some page => (.ok page, s)
  | none =>
    match ops.read_page s.journal page_id with
    | .error e => (.error e, s)
    | .ok (some page) =>
      (.ok page, { s with page_cache := insert_to_cache s.page_cache page })
    | .ok none =>
      match file_read_page s page_id with
      | .error e => (.error e, s)
      | .ok result =>
        (.ok result, { s with page_cache := insert_to_cache s.page_cache result })

/-- `PageHandler::get_first_page`. -/
def get_first_page {J : Type} (ops : JournalOps J) (s : PHState J) :
    Except DbErr RawPage × PHState J :=
  pipeline_read_page ops s 0

/-- `PageHandler::try_get_free_page_id`: pop the last free-list entry of
the header, if any, and pipeline-write the updated header. -/
def try_get_free_page_id {J : Type} (ops : JournalOps J) (s : PHState J) :
    Except DbErr (Option Nat) × PHState J :=
  match get_first_page ops s with
  | (.error e, s1) => (.error e, s1)
  | (.ok first_page, s1) =>
    let w := HeaderPageWrapper.from_raw_page first_page
    let free_list_size := w.get_free_list_size
    if free_list_size = 0 then (.ok none, s1)
    else
      let result := w.get_free_list_content (free_list_size - 1)
      let w2 := w.set_free_list_size (free_list_size - 1)
      match pipeline_write_page ops s1 w2.toRaw with
      | (.error e, s2) => (.error e, s2)
      | (.ok _, s2) => (.ok (some result), s2)

/-- `PageHandler::actual_alloc_page_id`: take `null_page_bar` as the new
id, write back `null_page_bar + 1`, extend `last_commit_db_size` when
the old bar has reached it, and pipeline-write the header. -/
def actual_alloc_page_id {J : Type} (ops : JournalOps J) (s : PHState J) :
    Except DbErr Nat × PHState J :=
  match get_first_page ops s with
  | (.error e, s1) => (.error e, s1)
  | (.ok first_page, s1) =>
    let w := HeaderPageWrapper.from_raw_page first_page
    let null_page_bar := w.get_null_page_bar
    let w2 := w.set_null_page_bar (null_page_bar + 1)
    let s2 :=
      if s1.last_commit_db_size ≤ null_page_bar then
        { s1 with last_commit_db_size :=
            s1.last_commit_db_size + DB_INIT_BLOCK_COUNT * s1.page_size }
      else s1
    match pipeline_write_page ops s2 w2.toRaw with
    | (.error e, s3) => (.error e, s3)
    | (.ok _, s3) => (.ok null_page_bar, s3)

/-- `PageHandler::alloc_page_id`: free-list pop, else actual alloc;
either way `page_count` is incremented on success. -/
def alloc_page_id {J : Type} (ops : JournalOps J) (s : PHState J) :
    Except DbErr Nat × PHState J :=
  match try_get_free_page_id ops s with
  | (.error e, s1) => (.error e, s1)
  | (.ok (some page_id), s1) =>
    (.ok page_id, { s1 with page_count := s1.page_count + 1 })
  | (.ok none, s1) =>
    match actual_alloc_page_id ops s1 with
    | (.error e, s2) => (.error e, s2)
    | (.ok page_id, s2) =>
      (.ok page_id, { s2 with page_count := s2.page_count + 1 })

/-- The header-update loop of `free_pages`: write the freed ids at
consecutive free-list slots starting at `base`. -/
def writeFreeList (w : HeaderPageWrapper) (base : Nat) : List Nat → HeaderPageWrapper
  | [] => w
  | p :: rest => writeFreeList (w.set_free_list_content base p) (base + 1) rest

/-- `PageHandler::free_pages`: append the ids to the header free list
and pipeline-write the header; the source aborts (`unimplemented!()`)
when the overflow page is in use or the in-header list would run past
`HEADER_FREE_LIST_MAX_SIZE`. -/
def free_pages {J : Type} (ops : JournalOps J) (s : PHState J) (pages : List Nat) :
    Except DbErr Unit × PHState J :=
  match pipeline_read_page ops s 0 with
  | (.error e, s1) => (.error e, s1)
  | (.ok first_page, s1) =>
    let w := HeaderPageWrapper.from_raw_page first_page
    if w.get_free_list_page_id ≠ 0 then (.error .notImplemented, s1)
    else
      let current_size := w.get_free_list_size
      if HEADER_FREE_LIST_MAX_SIZE ≤ current_size + pages.length then
        (.error .notImplemented, s1)
      else
        let w2 := (w.set_free_list_size (current_size + pages.length))
        let w3 := writeFreeList w2 current_size pages
        match pipeline_write_page ops s1 w3.toRaw with
        | (.error e, s2) => (.error e, s2)
        | (.ok _, s2) => (.ok (), { s2 with page_count := s2.page_count - pages.length })

/-- `PageHandler::free_page`. -/
def free_page {J : Type} (ops : JournalOps J) (s : PHState J) (pid : Nat) :
    Except DbErr Unit × PHState J :=
  free_pages ops s [pid]

/-- `PageHandler::force_distribute_new_data_page_wrapper`: allocate a
fresh page id and initialize an empty data page wrapper around it. -/
def force_distribute_new_data_page_wrapper {J : Type} (ops : JournalOps J) (s : PHState J) :
    Except DbErr DataPageWrapper × PHState J :=
  match alloc_page_id ops s with
  | (.error e, s1) => (.error e, s1)
  | (.ok new_pid, s1) => (.ok (DataPageWrapper.init new_pid s1.page_size), s1)

/-- `PageHandler::distribute_data_page_wrapper`: best-fit lookup in the
free-bucket map for `data_size + 2` bytes; on a hit pop the last page id
of the bucket (the key is removed after the read when the bucket became
empty), read the page through the pipeline and wrap it; on a miss
force-allocate a fresh page. -/
def distribute_data_page_wrapper {J : Type} (ops : JournalOps J) (s : PHState J)
    (data_size : Nat) : Except DbErr DataPageWrapper × PHState J :=
  let data_size2 := data_size + 2
  match mapFindGE s.data_page_map data_size2 with
  | some (key, value) =>
    if value.isEmpty then (.error .panicked, s)
    else
      let last_index := value.getD (value.length - 1) 0
      let value2 := value.dropLast
      let removed_key : Option Nat := if value2.isEmpty then some key else none
      let s1 := { s with data_page_map := mapSetValue s.data_page_map key value2 }
      match pipeline_read_page ops s1 last_index with
      | (.error e, s2) => (.error e, s2)
      | (.ok raw_page, s2) =>
        let wrapper := DataPageWrapper.from_raw raw_page
        let s3 :=
          match removed_key with
          | some k => { s2 with data_page_map := mapRemove s2.data_page_map k }
          | none => s2
        (.ok wrapper, s3)
  | none =>
    force_distribute_new_data_page_wrapper ops s

/-- `PageHandler::return_data_page_wrapper`: re-index the page under its
remaining size iff `remain_size ≥ PRESERVE_WRAPPER_MIN_REMAIN_SIZE` and
the slot count is below `u16::MAX / 2`. -/
def return_data_page_wrapper {J : Type} (s : PHState J) (wrapper : DataPageWrapper) :
    PHState J :=
  let remain_size := wrapper.remain_size
  if remain_size < PRESERVE_WRAPPER_MIN_REMAIN_SIZE then s
  else if 65535 / 2 ≤ wrapper.bar_len then s
  else
    match mapGet s.data_page_map remain_size with
    | some vector =>
      { s with data_page_map := mapSetValue s.data_page_map remain_size (vector ++ [wrapper.pid]) }
    | none =>
      { s with data_page_map := mapInsertSorted s.data_page_map remain_size [wrapper.pid] }

/-- `PageHandler::get_doc_from_ticket`: read the ticket's page, fetch
the slot; an absent slot is "not found", otherwise decode the bytes. -/
def get_doc_from_ticket {J : Type} (ops : JournalOps J) (s : PHState J)
    (data_ticket : DataTicket) : Except DbErr (Option Document) × PHState J :=
  match pipeline_read_page ops s data_ticket.pid with
  | (.error e, s1) => (.error e, s1)
  | (.ok page, s1) =>
    let wrapper := DataPageWrapper.from_raw page
    match wrapper.get data_ticket.index with
    | some bytes =>
      match Document.from_bytes bytes with
      | .error e => (.error e, s1)
      | .ok doc => (.ok (some doc), s1)
    | none => (.ok none, s1)

/-- `PageHandler::store_doc`: serialize, distribute a page with room,
issue the ticket (pid, slot count before the put, truncated to u16),
append the bytes, pipeline-write the page and re-index the wrapper. -/
def store_doc {J : Type} (ops : JournalOps J) (s : PHState J) (doc : Document) :
    Except DbErr DataTicket × PHState J :=
  match doc.to_bytes with
  | .error e => (.error e, s)
  | .ok bytes =>
    match distribute_data_page_wrapper ops s bytes.length with
    | (.error e, s1) => (.error e, s1)
    | (.ok wrapper, s1) =>
      let index := wrapper.bar_len % 65536
      let pid := wrapper.pid
      let wrapper2 := wrapper.put bytes
      match pipeline_write_page ops s1 wrapper2.borrow_page with
      | (.error e, s2) => (.error e, s2)
      | (.ok _, s2) =>
        let s3 := return_data_page_wrapper s2 wrapper2
        (.ok ⟨pid, index⟩, s3)

/-- `PageHandler::free_data_ticket`: read the ticket's page, copy the
slot's bytes through an unchecked unwrap, tombstone the slot, free the
page when it became empty, and pipeline-write the mutated page. -/
def free_data_ticket {J : Type} (ops : JournalOps J) (s : PHState J)
    (data_ticket : DataTicket) : Except DbErr (List Nat) × PHState J :=
  match pipeline_read_page ops s data_ticket.pid with
  | (.error e, s1) => (.error e, s1)
  | (.ok page, s1) =>
    let wrapper := DataPageWrapper.from_raw page
    match wrapper.get data_ticket.index with
    | none => (.error .panicked, s1)
    | some bytes =>
      let wrapper2 := wrapper.remove data_ticket.index
      match (if wrapper2.is_empty then free_page ops s1 data_ticket.pid else (.ok (), s1)) with
      | (.error e, s2) => (.error e, s2)
      | (.ok _, s2) =>
        match pipeline_write_page ops s2 wrapper2.consume_page with
        | (.error e, s3) => (.error e, s3)
        | (.ok _, s3) => (.ok bytes, s3)

/-- `PageHandler::start_transaction`: forward to the journal. -/
def start_transaction {J : Type} (ops : JournalOps J) (s : PHState J) (ty : TransactionType) :
    Except DbErr Unit × PHState J :=
  let r := ops.start_transaction s.journal ty
  (r.1, { s with journal := r.2 })

/-- `PageHandler::transaction_type`: forward to the journal. -/
def transaction_type {J : Type} (ops : JournalOps J) (s : PHState J) : Option TransactionType :=
  ops.transaction_type s.journal

/-- `PageHandler::upgrade_read_transaction_to_write`: forward to the
journal. -/
def upgrade_read_transaction_to_write {J : Type} (ops : JournalOps J) (s : PHState J) :
    Except DbErr Unit × PHState J :=
  let r := ops.upgrade_read_transaction_to_write s.journal
  (r.1, { s with journal := r.2 })

/-- `PageHandler::auto_start_transaction`: from NoTrans start a DbAuto
transaction; from UserAuto upgrade a Read journal transaction when Write
is requested; otherwise a no-op.  `auto_start` is true only in the first
case. -/
def auto_start_transaction {J : Type} (ops : JournalOps J) (s : PHState J)
    (ty : TransactionType) : Except DbErr AutoStartResult × PHState J :=
  match s.transaction_state with
  | .noTrans =>
    match start_transaction ops s ty with
    | (.error e, s1) => (.error e, s1)
    | (.ok _, s1) =>
      (.ok ⟨true⟩, { s1 with transaction_state := .dbAuto })
  | .userAuto =>
    match ty, transaction_type ops s with
    | .write, some .read =>
      match upgrade_read_transaction_to_write ops s with
      | (.error e, s1) => (.error e, s1)
      | (.ok _, s1) => (.ok ⟨false⟩, s1)
    | _, _ => (.ok ⟨false⟩, s)
  | _ => (.ok ⟨false⟩, s)

/-- `PageHandler::rollback`: forward to the journal's rollback, then
replace the page cache by a fresh empty one. -/
def rollback {J : Type} (ops : JournalOps J) (s : PHState J) :
    Except DbErr Unit × PHState J :=
  let r := ops.rollback s.journal
  match r.1 with
  | .error e => (.error e, { s with journal := r.2 })
  | .ok _ => (.ok (), { s with journal := r.2, page_cache := [] })

/-- `PageHandler::is_journal_full`. -/
def is_journal_full {J : Type} (ops : JournalOps J) (s : PHState J) : Bool :=
  1000 ≤ ops.len s.journal

/-- The spec's invariant P4, as a boolean check over a state: every
(bucket-size, pid) entry of the free-bucket map names a page whose
current content (as the read pipeline would deliver it) has exactly that
remaining size and fewer than `u16::MAX / 2` slots. -/
def freeMapInvariantB {J : Type} (ops : JournalOps J) (s : PHState J) : Bool :=
  s.data_page_map.all (fun e =>
    e.2.all (fun pid =>
      match (pipeline_read_page ops s pid).1 with
      | .ok raw =>
        let w := DataPageWrapper.from_raw raw
        (w.remain_size = e.1 : Bool) && (w.bar_len < 65535 / 2 : Bool)
      | .error _ => false))

/-- A trivial journal implementation used to instantiate the
parametric development on concrete inputs: every mutation succeeds and
the journal never holds a newer page version. -/
def trivJ : JournalOps Unit where
  append_raw_page := fun j _ => (.ok (), j)
  read_page := fun _ _ => .ok none
  start_transaction := fun j _ => (.ok (), j)
  upgrade_read_transaction_to_write := fun j => (.ok (), j)
  commit := fun j => (.ok (), j)
  rollback := fun j => (.ok (), j)
  len := fun _ => 0
  transaction_type := fun _ => none

/-- A journal implementation that always fails to append, used to
exercise the error path of the write pipeline on a concrete input. -/
def failJ : JournalOps Unit where
  append_raw_page := fun j _ => (.error .ioError, j)
  read_page := fun _ _ => .ok none
  start_transaction := fun j _ => (.ok (), j)
  upgrade_read_transaction_to_write := fun j => (.ok (), j)
  commit := fun j => (.ok (), j)
  rollback := fun j => (.ok (), j)
  len := fun _ => 0
  transaction_type := fun _ => none

/-- State of a concrete journal with transactional behavior: pages
appended in the current transaction and pages of committed
transactions. -/
structure JState where
  current : List RawPage
  committed : List RawPage
  deriving DecidableEq

/-- Modelled from the spec: a concrete journal manager (the journal
source is not in this snapshot) good enough to exhibit rollback
behavior: `append` records the page in the current transaction,
`read_page` returns the newest journaled version, `rollback` discards
the current transaction. -/
def jOps : JournalOps JState where
  append_raw_page := fun j p => (.ok (), { j with current := p :: j.current })
  read_page := fun j pid => .ok ((j.current ++ j.committed).find? (fun p => p.page_id = pid))
  start_transaction := fun j _ => (.ok (), j)
  upgrade_read_transaction_to_write := fun j => (.ok (), j)
  commit := fun j => (.ok (), ⟨[], j.current ++ j.committed⟩)
  rollback := fun j => (.ok (), { j with current := [] })
  len := fun j => j.current.length + j.committed.length
  transaction_type := fun _ => none

/-- Header of a freshly initialized database: bar 1, empty free list. -/
def freshHeader : HeaderData := ⟨1, 0, 0, []⟩

/-- A freshly opened handler over the trivial journal: 16 pages of 4096
bytes, page 0 the fresh header, everything else uninitialized. -/
def s0 : PHState Unit where
  file := [.header freshHeader, .uninit, .uninit, .uninit]
  last_commit_db_size := 65536
  page_size := 4096
  page_count := 16
  page_cache := []
  journal := ()
  data_page_map := []
  transaction_state := .noTrans

/-- A freshly opened handler over the concrete journal `jOps`. -/
def s9 : PHState JState where
  file := [.header freshHeader, .uninit, .uninit, .uninit]
  last_commit_db_size := 65536
  page_size := 4096
  page_count := 16
  page_cache := []
  journal := ⟨[], []⟩
  data_page_map := []
  transaction_state := .noTrans

/-- `s9` after storing the bytes [1, 2, 3] (page 1 carries one slot and
is indexed in the free-bucket map under its remaining size 4075). -/
def s9s : PHState JState := (store_doc jOps s9 ⟨[1, 2, 3]⟩).2

/-- `s9s` after a rollback: the cache is empty and the journal forgot
the write, but the free-bucket map still indexes page 1. -/
def s9b : PHState JState := (rollback jOps s9s).2

/-- A data page wrapper holding one record of 3 bytes on page 1. -/
def w9 : DataPageWrapper := ⟨1, 4096, [some [1, 2, 3]]⟩

/-- A sample non-header page used to exercise the write pipeline. -/
def pageW : RawPage := ⟨1, 4096, .uninit⟩

/-- The state after reading page 1 of the fresh handler `s9` (the read
populates the cache with the uninitialized page). -/
def s9r : PHState JState := (pipeline_read_page jOps s9 1).2

/-- A handler whose free-bucket map indexes pages of remaining sizes
40, 100 and 500 (the spec's best-fit scenario). -/
def s5 : PHState Unit where
  file := [.header freshHeader, .uninit, .uninit, .uninit, .uninit]
  last_commit_db_size := 65536
  page_size := 4096
  page_count := 16
  page_cache := []
  journal := ()
  data_page_map := [(40, [2]), (100, [3]), (500, [4])]
  transaction_state := .noTrans

/-- The page backing the best-fit scenario's chosen page id 3. -/
def page5 : RawPage := ⟨3, 4096, .uninit⟩

/-- `s5` after the best-fit lookup has popped page 3 from bucket 100. -/
def s5m : PHState Unit :=
  { s5 with data_page_map := mapSetValue s5.data_page_map 100 (([3] : List Nat).dropLast) }

/-- `s5m` after reading page 3 through the pipeline. -/
def s5r : PHState Unit := (pipeline_read_page trivJ s5m 3).2

/-- A handler whose header bar is one below its logical file size:
allocating here makes the new bar exactly reach
`last_commit_db_size`. -/
def s6 : PHState Unit where
  file := [.header ⟨65535, 0, 0, []⟩]
  last_commit_db_size := 65536
  page_size := 4096
  page_count := 16
  page_cache := []
  journal := ()
  data_page_map := []
  transaction_state := .noTrans

/-- A handler whose header free list already has 497 entries: freeing
3 more pages fills the list exactly to `HEADER_FREE_LIST_MAX_SIZE`. -/
def s7 : PHState Unit where
  file := [.header ⟨1, 497, 0, []⟩]
  last_commit_db_size := 65536
  page_size := 4096
  page_count := 1000
  page_cache := []
  journal := ()
  data_page_map := []
  transaction_state := .noTrans

/-- The state after freeing pages 3 and 4 on the fresh handler. -/
def s7s : PHState Unit := (free_pages trivJ s0 [3, 4]).2

/-- The fresh header page of `s0` as a raw page. -/
def fp0 : RawPage := ⟨0, 4096, .header freshHeader⟩

/-- `s0` after reading the header through the pipeline (header now
cached). -/
def s0c : PHState Unit := (pipeline_read_page trivJ s0 0).2

/-- `s0` after one fresh allocation. -/
def s0a : PHState Unit := (alloc_page_id trivJ s0).2

/-- The state after freeing pages 5, 6, 7 on the fresh handler. -/
def s4f : PHState Unit := (free_pages trivJ s0 [5, 6, 7]).2

/-- The header page as cached after freeing pages 5, 6, 7. -/
def fp4 : RawPage := ⟨0, 4096, .header ⟨1, 3, 0, [5, 6, 7]⟩⟩

/-- The state after popping one free page id from `s4f`. -/
def s4t : PHState Unit := (try_get_free_page_id trivJ s4f).2

/-! ## Theorems -/

/-- Helper: a successful pipeline write inserted the page into the
cache and changed no other coordinator field. -/
theorem pipeline_write_page_ok_state {J : Type} {ops : JournalOps J} {s : PHState J}
    {page : RawPage} {u : Unit} {s' : PHState J}
    (h : pipeline_write_page ops s page = (.ok u, s')) :
    s'.page_cache = insert_to_cache s.page_cache page ∧
    s'.data_page_map = s.data_page_map ∧ s'.page_count = s.page_count ∧
    s'.file = s.file ∧ s'.last_commit_db_size = s.last_commit_db_size ∧
    s'.page_size = s.page_size ∧ s'.transaction_state = s.transaction_state := by
  simp only [pipeline_write_page] at h
  split at h
  · exact absurd h (by simp)
  · simp only [Prod.mk.injEq] at h
    rw [← h.2]
    exact ⟨rfl, rfl, rfl, rfl, rfl, rfl, rfl⟩

/-- Helper: a successful pipeline read leaves every coordinator field
unchanged except that the cache may additionally hold the page read. -/
theorem pipeline_read_page_ok_state {J : Type} {ops : JournalOps J} {s : PHState J}
    {pid : Nat} {p : RawPage} {s' : PHState J}
    (h : pipeline_read_page ops s pid = (.ok p, s')) :
    (s'.page_cache = s.page_cache ∨ s'.page_cache = insert_to_cache s.page_cache p) ∧
    s'.data_page_map = s.data_page_map ∧ s'.page_count = s.page_count ∧
    s'.file = s.file ∧ s'.last_commit_db_size = s.last_commit_db_size ∧
    s'.page_size = s.page_size ∧ s'.transaction_state = s.transaction_state ∧
    s'.journal = s.journal := by
  simp only [pipeline_read_page] at h
  split at h
  · rename_i page hfound
    simp only [Prod.mk.injEq, Except.ok.injEq] at h
    rw [← h.2, ← h.1]
    exact ⟨Or.inl rfl, rfl, rfl, rfl, rfl, rfl, rfl, rfl⟩
  · split at h
    · exact absurd h (by simp)
    · rename_i page hj
      simp only [Prod.mk.injEq, Except.ok.injEq] at h
      rw [← h.2, ← h.1]
      exact ⟨Or.inr rfl, rfl, rfl, rfl, rfl, rfl, rfl, rfl⟩
    · split at h
      · exact absurd h (by simp)
      · rename_i result hf
        simp only [Prod.mk.injEq, Except.ok.injEq] at h
        rw [← h.2, ← h.1]
        exact ⟨Or.inr rfl, rfl, rfl, rfl, rfl, rfl, rfl, rfl⟩

/-- Helper: looking up the id of a just-inserted page in the cache
returns that page (the cache contract: the last-inserted version). -/
theorem get_from_cache_insert_self (c : List (Nat × RawPage)) (p : RawPage) :
    get_from_cache (insert_to_cache c p) p.page_id = some p := by
  simp [get_from_cache, insert_to_cache, List.find?]

/-- Helper: a data page wrapper round-trips through its raw page. -/
theorem DataPageWrapper.from_raw_toRaw (w : DataPageWrapper) :
    DataPageWrapper.from_raw w.toRaw = w := by
  cases w
  rfl

/-- Helper: reading the slot at the pre-put slot count after a `put`
returns the bytes just stored. -/
theorem DataPageWrapper.get_put (w : DataPageWrapper) (b : List Nat) :
    (w.put b).get w.bar_len = some b := by
  simp [DataPageWrapper.put, DataPageWrapper.get, DataPageWrapper.bar_len,
    List.getElem?_concat_length]

/-- Helper: `return_data_page_wrapper` touches only the free-bucket
map. -/
theorem return_data_page_wrapper_fields {J : Type} (s : PHState J) (w : DataPageWrapper) :
    (return_data_page_wrapper s w).page_cache = s.page_cache ∧
    (return_data_page_wrapper s w).file = s.file ∧
    (return_data_page_wrapper s w).page_count = s.page_count ∧
    (return_data_page_wrapper s w).journal = s.journal ∧
    (return_data_page_wrapper s w).page_size = s.page_size ∧
    (return_data_page_wrapper s w).last_commit_db_size = s.last_commit_db_size ∧
    (return_data_page_wrapper s w).transaction_state = s.transaction_state := by
  simp only [return_data_page_wrapper]
  split
  · exact ⟨rfl, rfl, rfl, rfl, rfl, rfl, rfl⟩
  · split
    · exact ⟨rfl, rfl, rfl, rfl, rfl, rfl, rfl⟩
    · split <;> exact ⟨rfl, rfl, rfl, rfl, rfl, rfl, rfl⟩

/-- Helper: on a key-sorted map the first entry with key at least `k`
has the lowest such key. -/
theorem mapFindGE_min (m : List (Nat × List Nat)) (k : Nat)
    (hs : mapSortedB m = true) (e : Nat × List Nat)
    (hf : mapFindGE m k = some e) :
    k ≤ e.1 ∧ ∀ e2 ∈ m, k ≤ e2.1 → e.1 ≤ e2.1 := by
  induction m with
  | nil => simp [mapFindGE] at hf
  | cons a rest ih =>
    simp only [mapSortedB, Bool.and_eq_true, List.all_eq_true] at hs
    by_cases hka : k ≤ a.1
    · have hfa : a = e := by
        simpa [mapFindGE, List.find?, hka] using hf
      subst hfa
      refine ⟨hka, ?_⟩
      intro e2 hmem
      rcases List.mem_cons.mp hmem with h2 | h2
      · intro _; rw [h2]
      · intro _
        exact Nat.le_of_lt (by simpa using hs.1 e2 h2)
    · have hfr : mapFindGE rest k = some e := by
        simpa [mapFindGE, List.find?, hka] using hf
      obtain ⟨hk, hmin⟩ := ih hs.2 hfr
      refine ⟨hk, ?_⟩
      intro e2 hmem
      rcases List.mem_cons.mp hmem with h2 | h2
      · intro hk2
        exact absurd (h2 ▸ hk2) (by simpa using hka)
      · exact hmin e2 h2

/-- Helper: the read pipeline never changes the free-bucket map. -/
theorem pipeline_read_page_map {J : Type} (ops : JournalOps J) (s : PHState J) (pid : Nat) :
    (pipeline_read_page ops s pid).2.data_page_map = s.data_page_map := by
  simp only [pipeline_read_page]
  split
  · rfl
  · split
    · rfl
    · rfl
    · split <;> rfl

/-- Helper: the write pipeline never changes the free-bucket map. -/
theorem pipeline_write_page_map {J : Type} (ops : JournalOps J) (s : PHState J) (p : RawPage) :
    (pipeline_write_page ops s p).2.data_page_map = s.data_page_map := by
  simp only [pipeline_write_page]
  split <;> rfl

/-- Helper: popping the free list never changes the free-bucket map. -/
theorem try_get_free_page_id_map {J : Type} (ops : JournalOps J) (s : PHState J) :
    (try_get_free_page_id ops s).2.data_page_map = s.data_page_map := by
  have hm := pipeline_read_page_map ops s 0
  simp only [try_get_free_page_id, get_first_page]
  split
  · rename_i e s1 heq
    rw [heq] at hm
    exact hm
  · rename_i fp s1 heq
    rw [heq] at hm
    split
    · exact hm
    · have hw := pipeline_write_page_map ops s1
        (((HeaderPageWrapper.from_raw_page fp).set_free_list_size
          ((HeaderPageWrapper.from_raw_page fp).get_free_list_size - 1)).toRaw)
      split
      · rename_i e s2 heq2
        rw [heq2] at hw
        exact hw.trans hm
      · rename_i u s2 heq2
        rw [heq2] at hw
        exact hw.trans hm

/-- Helper: a fresh allocation never changes the free-bucket map. -/
theorem actual_alloc_page_id_map {J : Type} (ops : JournalOps J) (s : PHState J) :
    (actual_alloc_page_id ops s).2.data_page_map = s.data_page_map := by
  have hm := pipeline_read_page_map ops s 0
  simp only [actual_alloc_page_id, get_first_page]
  split
  · rename_i e s1 heq
    rw [heq] at hm
    exact hm
  · rename_i fp s1 heq
    rw [heq] at hm
    by_cases hc : s1.last_commit_db_size ≤ (HeaderPageWrapper.from_raw_page fp).get_null_page_bar
    · simp only [if_pos hc]
      have hw := pipeline_write_page_map ops
        { s1 with last_commit_db_size :=
            s1.last_commit_db_size + DB_INIT_BLOCK_COUNT * s1.page_size }
        (((HeaderPageWrapper.from_raw_page fp).set_null_page_bar
          ((HeaderPageWrapper.from_raw_page fp).get_null_page_bar + 1)).toRaw)
      split
      · rename_i e s2 heq2
        rw [heq2] at hw
        exact hw.trans hm
      · rename_i u s2 heq2
        rw [heq2] at hw
        exact hw.trans hm
    · simp only [if_neg hc]
      have hw := pipeline_write_page_map ops s1
        (((HeaderPageWrapper.from_raw_page fp).set_null_page_bar
          ((HeaderPageWrapper.from_raw_page fp).get_null_page_bar + 1)).toRaw)
      split
      · rename_i e s2 heq2
        rw [heq2] at hw
        exact hw.trans hm
      · rename_i u s2 heq2
        rw [heq2] at hw
        exact hw.trans hm

/-- Helper: allocation never changes the free-bucket map. -/
theorem alloc_page_id_map {J : Type} (ops : JournalOps J) (s : PHState J) :
    (alloc_page_id ops s).2.data_page_map = s.data_page_map := by
  have hm := try_get_free_page_id_map ops s
  simp only [alloc_page_id]
  split
  · rename_i e s1 heq
    rw [heq] at hm
    exact hm
  · rename_i pid s1 heq
    rw [heq] at hm
    exact hm
  · rename_i s1 heq
    rw [heq] at hm
    have hm2 := actual_alloc_page_id_map ops s1
    split
    · rename_i e s2 heq2
      rw [heq2] at hm2
      exact hm2.trans hm
    · rename_i pid s2 heq2
      rw [heq2] at hm2
      exact hm2.trans hm

/-- Helper: the read pipeline never changes the page count. -/
theorem pipeline_read_page_count {J : Type} (ops : JournalOps J) (s : PHState J) (pid : Nat) :
    (pipeline_read_page ops s pid).2.page_count = s.page_count := by
  simp only [pipeline_read_page]
  split
  · rfl
  · split
    · rfl
    · rfl
    · split <;> rfl

/-- Helper: the write pipeline never changes the page count. -/
theorem pipeline_write_page_count {J : Type} (ops : JournalOps J) (s : PHState J) (p : RawPage) :
    (pipeline_write_page ops s p).2.page_count = s.page_count := by
  simp only [pipeline_write_page]
  split <;> rfl

/-- Helper: popping the free list never changes the page count. -/
theorem try_get_free_page_id_count {J : Type} (ops : JournalOps J) (s : PHState J) :
    (try_get_free_page_id ops s).2.page_count = s.page_count := by
  have hm := pipeline_read_page_count ops s 0
  simp only [try_get_free_page_id, get_first_page]
  split
  · rename_i e s1 heq
    rw [heq] at hm
    exact hm
  · rename_i fp s1 heq
    rw [heq] at hm
    split
    · exact hm
    · have hw := pipeline_write_page_count ops s1
        (((HeaderPageWrapper.from_raw_page fp).set_free_list_size
          ((HeaderPageWrapper.from_raw_page fp).get_free_list_size - 1)).toRaw)
      split
      · rename_i e s2 heq2
        rw [heq2] at hw
        exact hw.trans hm
      · rename_i u s2 heq2
        rw [heq2] at hw
        exact hw.trans hm

/-- Helper: the fresh-allocation path never changes the page count (the
increment happens in `alloc_page_id`). -/
theorem actual_alloc_page_id_count {J : Type} (ops : JournalOps J) (s : PHState J) :
    (actual_alloc_page_id ops s).2.page_count = s.page_count := by
  have hm := pipeline_read_page_count ops s 0
  simp only [actual_alloc_page_id, get_first_page]
  split
  · rename_i e s1 heq
    rw [heq] at hm
    exact hm
  · rename_i fp s1 heq
    rw [heq] at hm
    by_cases hc : s1.last_commit_db_size ≤ (HeaderPageWrapper.from_raw_page fp).get_null_page_bar
    · simp only [if_pos hc]
      have hw := pipeline_write_page_count ops
        { s1 with last_commit_db_size :=
            s1.last_commit_db_size + DB_INIT_BLOCK_COUNT * s1.page_size }
        (((HeaderPageWrapper.from_raw_page fp).set_null_page_bar
          ((HeaderPageWrapper.from_raw_page fp).get_null_page_bar + 1)).toRaw)
      split
      · rename_i e s2 heq2
        rw [heq2] at hw
        exact hw.trans hm
      · rename_i u s2 heq2
        rw [heq2] at hw
        exact hw.trans hm
    · simp only [if_neg hc]
      have hw := pipeline_write_page_count ops s1
        (((HeaderPageWrapper.from_raw_page fp).set_null_page_bar
          ((HeaderPageWrapper.from_raw_page fp).get_null_page_bar + 1)).toRaw)
      split
      · rename_i e s2 heq2
        rw [heq2] at hw
        exact hw.trans hm
      · rename_i u s2 heq2
        rw [heq2] at hw
        exact hw.trans hm

/-- Helper: every successful `alloc_page_id` increments `page_count` by
exactly one. -/
theorem alloc_page_id_count {J : Type} (ops : JournalOps J) (s : PHState J)
    (pid : Nat) (s2 : PHState J) (h : alloc_page_id ops s = (.ok pid, s2)) :
    s2.page_count = s.page_count + 1 := by
  have hm := try_get_free_page_id_count ops s
  simp only [alloc_page_id] at h
  split at h
  · exact absurd h (by simp)
  · rename_i p s1 heq
    rw [heq] at hm
    simp only [Prod.mk.injEq, Except.ok.injEq] at h
    rw [← h.2]
    simpa using hm
  · rename_i s1 heq
    rw [heq] at hm
    have hm2 := actual_alloc_page_id_count ops s1
    split at h
    · exact absurd h (by simp)
    · rename_i p s3 heq2
      rw [heq2] at hm2
      simp only [Prod.mk.injEq, Except.ok.injEq] at h
      rw [← h.2]
      simpa using hm2.trans hm

/-- C5: `distribute_data_page_wrapper` is best-fit.  First conjunct: on
a hit, the chosen bucket key is the lowest key at least `size + 2`, the
last page id of its vector is popped, the key entry is dropped when the
vector became empty, and the returned wrapper wraps the page read
through the pipeline.  Second conjunct: when no bucket fits, a brand-new
page id is allocated, a freshly initialized wrapper is returned, and the
free-bucket map is left untouched. -/
theorem distribute_best_fit {J : Type} (ops : JournalOps J) (s : PHState J) (data_size : Nat) :
    (∀ key value, mapSortedB s.data_page_map = true →
      mapFindGE s.data_page_map (data_size + 2) = some (key, value) →
      value ≠ [] →
      (data_size + 2 ≤ key ∧ ∀ e ∈ s.data_page_map, data_size + 2 ≤ e.1 → key ≤ e.1) ∧
      (∀ raw s2,
        pipeline_read_page ops
            { s with data_page_map := mapSetValue s.data_page_map key value.dropLast }
            (value.getD (value.length - 1) 0) = (.ok raw, s2) →
        distribute_data_page_wrapper ops s data_size =
          (.ok (DataPageWrapper.from_raw raw),
           if value.dropLast.isEmpty then
             { s2 with data_page_map := mapRemove s2.data_page_map key }
           else s2))) ∧
    (mapFindGE s.data_page_map (data_size + 2) = none →
      ∀ pid s1, alloc_page_id ops s = (.ok pid, s1) →
        distribute_data_page_wrapper ops s data_size =
          (.ok (DataPageWrapper.init pid s1.page_size), s1) ∧
        s1.data_page_map = s.data_page_map) := by
  constructor
  · intro key value hs hf hne
    constructor
    · have h := mapFindGE_min s.data_page_map (data_size + 2) hs (key, value) hf
      exact ⟨h.1, h.2⟩
    · intro raw s2 hread
      have hvne : value.isEmpty = false := by
        cases value with
        | nil => exact absurd rfl hne
        | cons a l => rfl
      simp only [distribute_data_page_wrapper, hf, hvne, Bool.false_eq_true, if_false,
        hread]
      by_cases hemp : value.dropLast.isEmpty <;> simp [hemp]
  · intro hf pid s1 halloc
    have hmap := alloc_page_id_map ops s
    rw [halloc] at hmap
    constructor
    · simp only [distribute_data_page_wrapper, hf,
        force_distribute_new_data_page_wrapper, halloc]
    · exact hmap

/-- Helper: reading back the field just written by `listSetD`. -/
theorem listSetD_getD_self (l : List Nat) (i v : Nat) :
    (listSetD l i v).getD i 0 = v := by
  unfold listSetD
  by_cases h : i < l.length
  · simp [h, List.getD, List.getElem?_set_eq_of_lt v h]
  · simp only [h, if_false]
    have hlen : l.length ≤ i := Nat.le_of_not_lt h
    have h1 : (l ++ List.replicate (i - l.length) 0).length = i := by
      simp [Nat.add_sub_cancel' hlen]
    have h2 : ((l ++ List.replicate (i - l.length) 0) ++ [v])[i]? = [v][(0 : Nat)]? := by
      rw [List.getElem?_append_right (by rw [h1])]
      rw [h1, Nat.sub_self]
    rw [List.getD, List.get?_eq_getElem?, h2]
    rfl

/-- Helper: `listSetD` leaves every position below the written one
unchanged. -/
theorem listSetD_getD_lt (l : List Nat) (i v j : Nat) (h : j < i) :
    (listSetD l i v).getD j 0 = l.getD j 0 := by
  unfold listSetD
  by_cases hl : i < l.length
  · rw [if_pos hl, List.getD, List.getD, List.get?_eq_getElem?, List.get?_eq_getElem?,
      List.getElem?_set_ne (Nat.ne_of_gt h)]
  · rw [if_neg hl]
    have hlen : l.length ≤ i := Nat.le_of_not_lt hl
    have hlt : j < (l ++ List.replicate (i - l.length) 0).length := by
      simp [Nat.add_sub_cancel' hlen]
      omega
    by_cases hj : j < l.length
    · rw [List.getD, List.getD, List.get?_eq_getElem?, List.get?_eq_getElem?]
      rw [List.getElem?_append_left hlt]
      rw [List.getElem?_append_left hj]
    · rw [List.getD, List.getD, List.get?_eq_getElem?, List.get?_eq_getElem?]
      have hj2 : l[j]? = none := by
        rw [List.getElem?_eq_none_iff]
        omega
      rw [List.getElem?_append_left hlt]
      rw [List.getElem?_append_right (Nat.le_of_not_lt hj)]
      have hrep : (List.replicate (i - l.length) (0 : Nat))[j - l.length]? = some 0 := by
        simp [List.getElem?_replicate]
        omega
      rw [hrep, hj2]
      rfl

/-- Helper: writing free-list entries never changes the recorded
free-list size. -/
theorem writeFreeList_size (pages : List Nat) :
    ∀ (w : HeaderPageWrapper) (base : Nat),
      (writeFreeList w base pages).get_free_list_size = w.get_free_list_size := by
  induction pages with
  | nil => intro w base; rfl
  | cons p rest ih =>
    intro w base
    exact (ih (w.set_free_list_content base p) (base + 1)).trans rfl

/-- Helper: writing free-list entries from `base` upward leaves entries
below `base` unchanged. -/
theorem writeFreeList_content_lt (pages : List Nat) :
    ∀ (w : HeaderPageWrapper) (base j : Nat), j < base →
      (writeFreeList w base pages).get_free_list_content j = w.get_free_list_content j := by
  induction pages with
  | nil => intro w base j _; rfl
  | cons p rest ih =>
    intro w base j hj
    have h1 := ih (w.set_free_list_content base p) (base + 1) j (Nat.lt_succ_of_lt hj)
    refine h1.trans ?_
    exact listSetD_getD_lt w.h.free_list_content base p j hj

/-- Helper: after `writeFreeList w base pages`, entry `base + i` holds
`pages[i]` — the ids are appended in order. -/
theorem writeFreeList_content (pages : List Nat) :
    ∀ (w : HeaderPageWrapper) (base i : Nat), i < pages.length →
      (writeFreeList w base pages).get_free_list_content (base + i) = pages.getD i 0 := by
  induction pages with
  | nil => intro w base i hi; exact absurd hi (by simp)
  | cons p rest ih =>
    intro w base i hi
    cases i with
    | zero =>
      have h1 := writeFreeList_content_lt rest (w.set_free_list_content base p) (base + 1)
        base (Nat.lt_succ_self base)
      simp only [writeFreeList, Nat.add_zero]
      refine h1.trans ?_
      exact listSetD_getD_self w.h.free_list_content base p
    | succ n =>
      have h1 := ih (w.set_free_list_content base p) (base + 1) n
        (by simpa using Nat.lt_of_succ_lt_succ hi)
      simp only [writeFreeList]
      have harith : base + (n + 1) = (base + 1) + n := by omega
      rw [harith]
      exact h1

/-- C7 counterexample: with 497 free-list entries and
`HEADER_FREE_LIST_MAX_SIZE = 500`, freeing 3 pages fills the list
exactly to the maximum — no overflow — and the overflow pointer is 0,
yet `free_pages` takes the unimplemented path: the source rejects
`current_size + len >= MAX`, one entry earlier than the claim's
"would overflow". -/
theorem free_pages_overflow_cex :
    (HeaderPageWrapper.from_raw_page ⟨0, 4096, .header ⟨1, 497, 0, []⟩⟩).get_free_list_page_id
      = 0 ∧
    497 + ([11, 12, 13] : List Nat).length ≤ HEADER_FREE_LIST_MAX_SIZE ∧
    (free_pages trivJ s7 [11, 12, 13]).1 = .error .notImplemented := by
  refine ⟨rfl, by decide, rfl⟩

/-- C7 amended: given the header read, `free_pages` takes the
unimplemented-overflow path — failing without mutating the header —
exactly when the overflow pointer is non-zero or the resulting free-list
size would reach or exceed `HEADER_FREE_LIST_MAX_SIZE`; otherwise, on
success, it appends every id in order at consecutive free-list entries,
records `free_list_size + len`, pipeline-writes the header and
decrements `page_count` by `len`. -/
theorem free_pages_amended {J : Type} (ops : JournalOps J) (s : PHState J)
    (pages : List Nat) (fp : RawPage) (s1 : PHState J)
    (h1 : pipeline_read_page ops s 0 = (.ok fp, s1)) :
    ((HeaderPageWrapper.from_raw_page fp).get_free_list_page_id ≠ 0 ∨
        HEADER_FREE_LIST_MAX_SIZE ≤
          (HeaderPageWrapper.from_raw_page fp).get_free_list_size + pages.length →
      free_pages ops s pages = (.error .notImplemented, s1)) ∧
    ((HeaderPageWrapper.from_raw_page fp).get_free_list_page_id = 0 →
      (HeaderPageWrapper.from_raw_page fp).get_free_list_size + pages.length <
        HEADER_FREE_LIST_MAX_SIZE →
      ∀ s2, free_pages ops s pages = (.ok (), s2) →
        s2.page_count = s1.page_count - pages.length ∧
        s2.page_cache = insert_to_cache s1.page_cache
          (writeFreeList
            ((HeaderPageWrapper.from_raw_page fp).set_free_list_size
              ((HeaderPageWrapper.from_raw_page fp).get_free_list_size + pages.length))
            ((HeaderPageWrapper.from_raw_page fp).get_free_list_size) pages).toRaw) ∧
    ((writeFreeList
        ((HeaderPageWrapper.from_raw_page fp).set_free_list_size
          ((HeaderPageWrapper.from_raw_page fp).get_free_list_size + pages.length))
        ((HeaderPageWrapper.from_raw_page fp).get_free_list_size) pages).get_free_list_size
      = (HeaderPageWrapper.from_raw_page fp).get_free_list_size + pages.length ∧
     ∀ i, i < pages.length →
      (writeFreeList
        ((HeaderPageWrapper.from_raw_page fp).set_free_list_size
          ((HeaderPageWrapper.from_raw_page fp).get_free_list_size + pages.length))
        ((HeaderPageWrapper.from_raw_page fp).get_free_list_size) pages).get_free_list_content
          ((HeaderPageWrapper.from_raw_page fp).get_free_list_size + i) = pages.getD i 0) := by
  refine ⟨?_, ?_, ?_, ?_⟩
  · rintro (hp | hp)
    · simp [free_pages, h1, hp]
    · simp [free_pages, h1, Nat.not_lt_of_le hp]
  · intro hp0 hlt s2 h
    simp only [free_pages, h1, hp0, ne_eq, not_true_eq_false, if_false,
      Nat.not_le_of_lt hlt, ite_false, if_neg (Nat.not_le_of_lt hlt)] at h
    split at h
    · exact absurd h (by simp)
    · rename_i u sW heq
      simp only [Prod.mk.injEq] at h
      have hW := pipeline_write_page_ok_state heq
      constructor
      · rw [← h.2]
        exact congrArg (fun n => n - pages.length) hW.2.2.1
      · rw [← h.2]
        exact hW.1
  · exact writeFreeList_size pages _ _
  · intro i hi
    exact writeFreeList_content pages _ _ i hi

/-- Witness for the amended C7 at a concrete input: freeing pages 3 and
4 on the fresh handler (no overflow pointer, list far from full)
succeeds and decrements the page count by 2. -/
theorem free_pages_amended_witness :
    pipeline_read_page trivJ s0 0 = (.ok fp0, s0c) ∧
    (HeaderPageWrapper.from_raw_page fp0).get_free_list_page_id = 0 ∧
    (HeaderPageWrapper.from_raw_page fp0).get_free_list_size + ([3, 4] : List Nat).length <
      HEADER_FREE_LIST_MAX_SIZE ∧
    free_pages trivJ s0 [3, 4] = (.ok (), s7s) ∧
    s7s.page_count = s0c.page_count - ([3, 4] : List Nat).length := by
  refine ⟨rfl, rfl, by decide, rfl, ?_⟩
  exact ((free_pages_amended trivJ s0 [3, 4] fp0 s0c rfl).2.1 rfl (by decide) s7s rfl).1

/-- C6 counterexample: on a handler whose header bar is 65535 with
`last_commit_db_size = 65536`, allocating returns 65535 and the new bar
65536 exactly reaches `last_commit_db_size`, yet `last_commit_db_size`
is not extended — the source compares the OLD bar against the size, so
the claim's "new bar reaches" trigger is off by one. -/
theorem alloc_extend_condition_cex :
    (alloc_page_id trivJ s6).1 = .ok 65535 ∧
    65535 + 1 = s6.last_commit_db_size ∧
    (alloc_page_id trivJ s6).2.last_commit_db_size = s6.last_commit_db_size ∧
    (alloc_page_id trivJ s6).2.last_commit_db_size ≠
      s6.last_commit_db_size + DB_INIT_BLOCK_COUNT * s6.page_size := by
  refine ⟨rfl, rfl, rfl, ?_⟩
  decide

/-- C6 amended: when the free list is empty, `alloc_page_id` returns
the current `null_page_bar` as the new id and pipeline-writes the header
with bar + 1; `last_commit_db_size` is extended by
`DB_INIT_BLOCK_COUNT * page_size` exactly when the OLD bar has reached
it (equivalently: when the new bar strictly exceeds it), and the main
file is never truncated.  The final conjunct is unconditional on the
free list: EVERY successful `alloc_page_id` call — free-list hit or
fresh allocation, from any state — increments `page_count` by exactly
one. -/
theorem alloc_page_id_amended {J : Type} (ops : JournalOps J) (s : PHState J)
    (fp : RawPage) (s1 : PHState J)
    (h1 : pipeline_read_page ops s 0 = (.ok fp, s1))
    (h2 : (HeaderPageWrapper.from_raw_page fp).get_free_list_size = 0)
    (fp' : RawPage) (s1' : PHState J)
    (h3 : pipeline_read_page ops s1 0 = (.ok fp', s1'))
    (pid : Nat) (s2 : PHState J)
    (h4 : alloc_page_id ops s = (.ok pid, s2)) :
    pid = (HeaderPageWrapper.from_raw_page fp').get_null_page_bar ∧
    s2.page_cache = insert_to_cache s1'.page_cache
      ((HeaderPageWrapper.from_raw_page fp').set_null_page_bar
        ((HeaderPageWrapper.from_raw_page fp').get_null_page_bar + 1)).toRaw ∧
    s2.last_commit_db_size =
      (if s1'.last_commit_db_size ≤ (HeaderPageWrapper.from_raw_page fp').get_null_page_bar
       then s1'.last_commit_db_size + DB_INIT_BLOCK_COUNT * s1'.page_size
       else s1'.last_commit_db_size) ∧
    s2.file = s.file ∧
    (∀ (s3 : PHState J) (pid2 : Nat) (s4 : PHState J),
      alloc_page_id ops s3 = (.ok pid2, s4) → s4.page_count = s3.page_count + 1) := by
  have hcount : ∀ (s3 : PHState J) (pid2 : Nat) (s4 : PHState J),
      alloc_page_id ops s3 = (.ok pid2, s4) → s4.page_count = s3.page_count + 1 :=
    fun s3 pid2 s4 h => alloc_page_id_count ops s3 pid2 s4 h
  have hf1 := (pipeline_read_page_ok_state h1).2.2.2.1
  have hf2 := (pipeline_read_page_ok_state h3).2.2.2.1
  have htry : try_get_free_page_id ops s = (.ok none, s1) := by
    simp [try_get_free_page_id, get_first_page, h1, h2]
  simp only [alloc_page_id, htry] at h4
  simp only [actual_alloc_page_id, get_first_page, h3] at h4
  by_cases hc : s1'.last_commit_db_size ≤ (HeaderPageWrapper.from_raw_page fp').get_null_page_bar
  · simp only [if_pos hc] at h4
    split at h4
    · exact absurd h4 (by simp)
    · rename_i p sX heq
      split at heq
      · exact absurd heq (by simp)
      · rename_i u s3 heq2
        simp only [Prod.mk.injEq, Except.ok.injEq] at heq h4
        obtain ⟨hbar, hs3⟩ := heq
        obtain ⟨hpid, hs2⟩ := h4
        have hW := pipeline_write_page_ok_state heq2
        refine ⟨hpid ▸ hbar.symm, ?_, ?_, ?_, hcount⟩
        · rw [← hs2, ← hs3]
          exact hW.1
        · rw [← hs2, ← hs3, if_pos hc]
          exact hW.2.2.2.2.1
        · rw [← hs2, ← hs3]
          exact (hW.2.2.2.1).trans (hf2.trans hf1)
  · simp only [if_neg hc] at h4
    split at h4
    · exact absurd h4 (by simp)
    · rename_i p sX heq
      split at heq
      · exact absurd heq (by simp)
      · rename_i u s3 heq2
        simp only [Prod.mk.injEq, Except.ok.injEq] at heq h4
        obtain ⟨hbar, hs3⟩ := heq
        obtain ⟨hpid, hs2⟩ := h4
        have hW := pipeline_write_page_ok_state heq2
        refine ⟨hpid ▸ hbar.symm, ?_, ?_, ?_, hcount⟩
        · rw [← hs2, ← hs3]
          exact hW.1
        · rw [← hs2, ← hs3, if_neg hc]
          exact hW.2.2.2.2.1
        · rw [← hs2, ← hs3]
          exact (hW.2.2.2.1).trans (hf2.trans hf1)

/-- Witness for the amended C6 at concrete inputs: allocating on the
fresh handler (empty free list, bar 1) yields page id 1 and increments
the page count, and the page-count conjunct also covers a free-list
hit — allocating after freeing 5, 6, 7 pops page 7 and likewise
increments the page count. -/
theorem alloc_page_id_amended_witness :
    pipeline_read_page trivJ s0 0 = (.ok fp0, s0c) ∧
    (HeaderPageWrapper.from_raw_page fp0).get_free_list_size = 0 ∧
    alloc_page_id trivJ s0 = (.ok 1, s0a) ∧
    (1 : Nat) = (HeaderPageWrapper.from_raw_page fp0).get_null_page_bar ∧
    s0a.page_count = s0.page_count + 1 ∧
    (alloc_page_id trivJ s4f).1 = .ok 7 ∧
    (alloc_page_id trivJ s4f).2.page_count = s4f.page_count + 1 := by
  refine ⟨rfl, rfl, rfl, ?_, ?_, rfl, ?_⟩
  · exact (alloc_page_id_amended trivJ s0 fp0 s0c rfl rfl fp0 s0c rfl 1 s0a rfl).1
  · exact (alloc_page_id_amended trivJ s0 fp0 s0c rfl rfl fp0 s0c rfl 1 s0a rfl).2.2.2.2
      s0 1 s0a rfl
  · exact (alloc_page_id_amended trivJ s0 fp0 s0c rfl rfl fp0 s0c rfl 1 s0a rfl).2.2.2.2
      s4f 7 (alloc_page_id trivJ s4f).2 rfl

/-- Helper: lookup on a non-empty association list checks the head
first. -/
theorem mapGet_cons (a : Nat × List Nat) (m : List (Nat × List Nat)) (k : Nat) :
    mapGet (a :: m) k = if a.1 = k then some a.2 else mapGet m k := by
  simp only [mapGet, List.find?]
  by_cases h : a.1 = k
  · simp [h]
  · simp [h]

/-- Helper: replacing the value of a present key is visible to
lookup. -/
theorem mapGet_mapSetValue (m : List (Nat × List Nat)) (k : Nat) (v : List Nat)
    (h : (mapGet m k).isSome) :
    mapGet (mapSetValue m k v) k = some v := by
  induction m with
  | nil => simp [mapGet] at h
  | cons e rest ih =>
    have hcons : mapSetValue (e :: rest) k v
        = (if e.1 = k then (e.1, v) else e) :: mapSetValue rest k v := rfl
    rw [hcons]
    by_cases he : e.1 = k
    · rw [if_pos he, mapGet_cons]
      simp [he]
    · rw [if_neg he, mapGet_cons, if_neg he]
      rw [mapGet_cons, if_neg he] at h
      exact ih h

/-- Helper: replacing the value of one key leaves other lookups
unchanged. -/
theorem mapGet_mapSetValue_ne (m : List (Nat × List Nat)) (k : Nat) (v : List Nat)
    (k2 : Nat) (h : k2 ≠ k) :
    mapGet (mapSetValue m k v) k2 = mapGet m k2 := by
  induction m with
  | nil => rfl
  | cons e rest ih =>
    have hcons : mapSetValue (e :: rest) k v
        = (if e.1 = k then (e.1, v) else e) :: mapSetValue rest k v := rfl
    rw [hcons]
    by_cases he : e.1 = k
    · have hne : ¬ (e.1 = k2) := by
        rw [he]
        exact fun hx => h hx.symm
      rw [if_pos he, mapGet_cons, mapGet_cons, if_neg hne, if_neg hne]
      exact ih
    · rw [if_neg he, mapGet_cons, mapGet_cons]
      by_cases he2 : e.1 = k2
      · rw [if_pos he2, if_pos he2]
      · rw [if_neg he2, if_neg he2]
        exact ih

/-- Helper: a sorted insert is visible to lookup. -/
theorem mapGet_mapInsertSorted (m : List (Nat × List Nat)) (k : Nat) (v : List Nat) :
    mapGet (mapInsertSorted m k v) k = some v := by
  induction m with
  | nil =>
    rw [mapInsertSorted, mapGet_cons]
    simp
  | cons e rest ih =>
    by_cases hle : k ≤ e.1
    · simp only [mapInsertSorted, if_pos hle]
      rw [mapGet_cons]
      simp
    · simp only [mapInsertSorted, if_neg hle]
      have hne : ¬ (e.1 = k) := by
        intro hx
        exact hle (Nat.le_of_eq hx.symm)
      rw [mapGet_cons, if_neg hne]
      exact ih

/-- Helper: a sorted insert leaves other lookups unchanged. -/
theorem mapGet_mapInsertSorted_ne (m : List (Nat × List Nat)) (k : Nat) (v : List Nat)
    (k2 : Nat) (h : k2 ≠ k) :
    mapGet (mapInsertSorted m k v) k2 = mapGet m k2 := by
  induction m with
  | nil =>
    rw [mapInsertSorted, mapGet_cons, if_neg (fun hx => h hx.symm)]
  | cons e rest ih =>
    by_cases hle : k ≤ e.1
    · simp only [mapInsertSorted, if_pos hle]
      rw [mapGet_cons, if_neg (fun hx => h hx.symm)]
    · simp only [mapInsertSorted, if_neg hle]
      rw [mapGet_cons, mapGet_cons]
      by_cases he2 : e.1 = k2
      · rw [if_pos he2, if_pos he2]
      · rw [if_neg he2, if_neg he2]
        exact ih

/-- C9 counterexample: the spec's P4 invariant fails after a public
operation.  Storing a document indexes page 1 in the free-bucket map
under its remaining size; the subsequent rollback discards the write
(cache and journal), leaving a map entry whose page no longer has that
remaining size — the invariant check is true after the store and false
after the rollback. -/
theorem free_map_invariant_cex :
    (store_doc jOps s9 ⟨[1, 2, 3]⟩).1 = .ok ⟨1, 0⟩ ∧
    freeMapInvariantB jOps s9s = true ∧
    (rollback jOps s9s).1 = .ok () ∧
    freeMapInvariantB jOps s9b = false := by
  exact ⟨rfl, rfl, rfl, rfl⟩

/-- C9 amended: the free-bucket map invariant holds at insertion time:
`return_data_page_wrapper` indexes the wrapper — under a key equal to
its current `remain_size`, appended at the end of the bucket — iff
`remain_size ≥ PRESERVE_WRAPPER_MIN_REMAIN_SIZE` and the slot count is
below `u16::MAX / 2`; otherwise the state is unchanged; no other bucket
is touched.  (Entries may go stale after later operations such as
rollback, which does not purge the map; the map is advisory.) -/
theorem return_data_page_wrapper_amended {J : Type} (s : PHState J) (w : DataPageWrapper) :
    (PRESERVE_WRAPPER_MIN_REMAIN_SIZE ≤ w.remain_size ∧ w.bar_len < 65535 / 2 →
      mapGet (return_data_page_wrapper s w).data_page_map w.remain_size =
        some ((mapGet s.data_page_map w.remain_size).getD [] ++ [w.pid])) ∧
    (w.remain_size < PRESERVE_WRAPPER_MIN_REMAIN_SIZE ∨ 65535 / 2 ≤ w.bar_len →
      return_data_page_wrapper s w = s) ∧
    (∀ k, k ≠ w.remain_size →
      mapGet (return_data_page_wrapper s w).data_page_map k = mapGet s.data_page_map k) := by
  refine ⟨?_, ?_, ?_⟩
  · rintro ⟨h1, h2⟩
    simp only [return_data_page_wrapper, if_neg (Nat.not_lt_of_le h1),
      if_neg (Nat.not_le_of_lt h2)]
    rcases hg : mapGet s.data_page_map w.remain_size with _ | vec
    · simp only [hg]
      rw [mapGet_mapInsertSorted]
      rfl
    · simp only [hg]
      rw [mapGet_mapSetValue s.data_page_map w.remain_size (vec ++ [w.pid]) (by rw [hg]; rfl)]
      rfl
  · rintro (h | h)
    · simp [return_data_page_wrapper, h]
    · by_cases h1 : w.remain_size < PRESERVE_WRAPPER_MIN_REMAIN_SIZE
      · simp [return_data_page_wrapper, h1]
      · simp [return_data_page_wrapper, h1, h]
  · intro k hk
    simp only [return_data_page_wrapper]
    split
    · rfl
    · split
      · rfl
      · split
        · rename_i vec hg
          exact mapGet_mapSetValue_ne s.data_page_map w.remain_size (vec ++ [w.pid]) k hk
        · exact mapGet_mapInsertSorted_ne s.data_page_map w.remain_size [w.pid] k hk

/-- Witness for the amended C9 at a concrete input: returning a
one-slot wrapper of remaining size 4075 to the fresh handler's empty
map indexes page 1 under bucket 4075. -/
theorem return_data_page_wrapper_amended_witness :
    PRESERVE_WRAPPER_MIN_REMAIN_SIZE ≤ w9.remain_size ∧ w9.bar_len < 65535 / 2 ∧
    mapGet (return_data_page_wrapper s9 w9).data_page_map w9.remain_size =
      some ((mapGet s9.data_page_map w9.remain_size).getD [] ++ [w9.pid]) := by
  refine ⟨by decide, by decide, ?_⟩
  exact (return_data_page_wrapper_amended s9 w9).1 ⟨by decide, by decide⟩

/-- Witness for C5 at a concrete input: with buckets of remaining sizes
40, 100, 500, a request for 80 bytes picks the bucket of size 100
(lowest key at least 82) and wraps the page read from it. -/
theorem distribute_best_fit_witness :
    mapSortedB s5.data_page_map = true ∧
    mapFindGE s5.data_page_map (80 + 2) = some (100, [3]) ∧
    pipeline_read_page trivJ
        { s5 with data_page_map := mapSetValue s5.data_page_map 100 (([3] : List Nat).dropLast) }
        (([3] : List Nat).getD (([3] : List Nat).length - 1) 0) = (.ok page5, s5r) ∧
    (distribute_data_page_wrapper trivJ s5 80).1 = .ok (DataPageWrapper.from_raw page5) := by
  refine ⟨rfl, rfl, rfl, ?_⟩
  have h := ((distribute_best_fit trivJ s5 80).1 100 [3] rfl rfl (by decide)).2 page5 s5r rfl
  exact congrArg Prod.fst h

/-- C3: a stored document is immediately retrievable: when `store_doc`
distributes wrapper `w` and returns ticket `t`, the ticket is
(pid of the distributed page, slot count of that page before the put),
and `get_doc_from_ticket` on `t` returns a document whose byte
serialization equals the stored document's.  The slot-count bound is the
u16 regime of the ticket index, maintained by the allocator's
`u16::MAX / 2` re-indexing cap. -/
theorem store_doc_get_doc_roundtrip {J : Type} (ops : JournalOps J) (s : PHState J)
    (doc : Document) (w : DataPageWrapper) (s1 : PHState J)
    (hdist : distribute_data_page_wrapper ops s doc.bytes.length = (.ok w, s1))
    (hlen : w.bar_len < 65536)
    (t : DataTicket) (s' : PHState J)
    (hstore : store_doc ops s doc = (.ok t, s')) :
    t = ⟨w.pid, w.bar_len⟩ ∧
    (get_doc_from_ticket ops s' t).1 = .ok (some ⟨doc.bytes⟩) ∧
    Document.to_bytes ⟨doc.bytes⟩ = doc.to_bytes := by
  simp only [store_doc, Document.to_bytes, hdist] at hstore
  split at hstore
  · exact absurd hstore (by simp)
  · rename_i u s2 hw
    simp only [Prod.mk.injEq, Except.ok.injEq] at hstore
    obtain ⟨ht, hs'⟩ := hstore
    have hmod : w.bar_len % 65536 = w.bar_len := Nat.mod_eq_of_lt hlen
    have ht2 : t = ⟨w.pid, w.bar_len⟩ := by rw [← ht, hmod]
    refine ⟨ht2, ?_, rfl⟩
    have hc2 : s2.page_cache = insert_to_cache s1.page_cache (w.put doc.bytes).borrow_page :=
      (pipeline_write_page_ok_state hw).1
    have hc' : s'.page_cache = s2.page_cache := by
      rw [← hs']
      exact (return_data_page_wrapper_fields s2 (w.put doc.bytes)).1
    have hpid : (w.put doc.bytes).borrow_page.page_id = w.pid := rfl
    have hcache : get_from_cache s'.page_cache t.pid = some (w.put doc.bytes).borrow_page := by
      rw [hc', hc2, ht2, ← hpid]
      exact get_from_cache_insert_self s1.page_cache (w.put doc.bytes).borrow_page
    have hread : pipeline_read_page ops s' t.pid = (.ok (w.put doc.bytes).borrow_page, s') := by
      simp only [pipeline_read_page, hcache]
    simp only [get_doc_from_ticket, hread]
    have hba : DataPageWrapper.from_raw (w.put doc.bytes).borrow_page = w.put doc.bytes :=
      DataPageWrapper.from_raw_toRaw (w.put doc.bytes)
    have hidx : t.index = w.bar_len := by rw [ht2]
    rw [hba, hidx, DataPageWrapper.get_put]
    rfl

/-- Witness for C3 at a concrete input: storing the bytes [1, 2, 3] on
the fresh handler issues ticket (1, 0) and reading the ticket back
yields the same bytes. -/
theorem store_doc_get_doc_roundtrip_witness :
    distribute_data_page_wrapper trivJ s0 ([1, 2, 3] : List Nat).length
      = (.ok (DataPageWrapper.init 1 4096), (distribute_data_page_wrapper trivJ s0 3).2) ∧
    (DataPageWrapper.init 1 4096).bar_len < 65536 ∧
    store_doc trivJ s0 ⟨[1, 2, 3]⟩ = (.ok ⟨1, 0⟩, (store_doc trivJ s0 ⟨[1, 2, 3]⟩).2) ∧
    DataTicket.mk 1 0 = ⟨(DataPageWrapper.init 1 4096).pid, (DataPageWrapper.init 1 4096).bar_len⟩ ∧
    (get_doc_from_ticket trivJ (store_doc trivJ s0 ⟨[1, 2, 3]⟩).2 ⟨1, 0⟩).1
      = .ok (some ⟨[1, 2, 3]⟩) := by
  refine ⟨rfl, by decide, rfl, ?_, ?_⟩
  · exact (store_doc_get_doc_roundtrip trivJ s0 ⟨[1, 2, 3]⟩ (DataPageWrapper.init 1 4096)
      (distribute_data_page_wrapper trivJ s0 3).2 rfl (by decide) ⟨1, 0⟩
      (store_doc trivJ s0 ⟨[1, 2, 3]⟩).2 rfl).1
  · exact (store_doc_get_doc_roundtrip trivJ s0 ⟨[1, 2, 3]⟩ (DataPageWrapper.init 1 4096)
      (distribute_data_page_wrapper trivJ s0 3).2 rfl (by decide) ⟨1, 0⟩
      (store_doc trivJ s0 ⟨[1, 2, 3]⟩).2 rfl).2.1

/-- C4: the header free list is LIFO.  First conjunct: whenever
`try_get_free_page_id` (the free-list branch of `alloc_page_id`)
succeeds with a page id, the header had a non-empty free list, the id is
entry `free_list_size - 1`, and the header pipeline-written back has
`free_list_size` decremented.  Second conjunct: freeing pages a, b, c on
the fresh handler and allocating three times yields c, then b, then
a. -/
theorem free_list_lifo {J : Type} (ops : JournalOps J) (s : PHState J) (fp : RawPage)
    (s1 : PHState J) (x : Nat) (s2 : PHState J)
    (h1 : pipeline_read_page ops s 0 = (.ok fp, s1))
    (h2 : try_get_free_page_id ops s = (.ok (some x), s2)) :
    (0 < (HeaderPageWrapper.from_raw_page fp).get_free_list_size ∧
     x = (HeaderPageWrapper.from_raw_page fp).get_free_list_content
          ((HeaderPageWrapper.from_raw_page fp).get_free_list_size - 1) ∧
     s2.page_cache = insert_to_cache s1.page_cache
       ((HeaderPageWrapper.from_raw_page fp).set_free_list_size
          ((HeaderPageWrapper.from_raw_page fp).get_free_list_size - 1)).toRaw) ∧
    (∀ a b c : Nat,
      (free_pages trivJ s0 [a, b, c]).1 = .ok () ∧
      (alloc_page_id trivJ (free_pages trivJ s0 [a, b, c]).2).1 = .ok c ∧
      (alloc_page_id trivJ
        (alloc_page_id trivJ (free_pages trivJ s0 [a, b, c]).2).2).1 = .ok b ∧
      (alloc_page_id trivJ (alloc_page_id trivJ
        (alloc_page_id trivJ (free_pages trivJ s0 [a, b, c]).2).2).2).1 = .ok a) := by
  constructor
  · simp only [try_get_free_page_id, get_first_page, h1] at h2
    split at h2
    · exact absurd h2 (by simp)
    · rename_i hnz
      split at h2
      · exact absurd h2 (by simp)
      · rename_i u s2' hw
        simp only [Prod.mk.injEq, Except.ok.injEq, Option.some.injEq] at h2
        refine ⟨Nat.pos_of_ne_zero hnz, h2.1.symm, ?_⟩
        rw [← h2.2]
        exact (pipeline_write_page_ok_state hw).1
  · intro a b c
    exact ⟨rfl, rfl, rfl, rfl⟩

/-- Witness for C4 at a concrete input: after freeing 5, 6, 7 on the
fresh handler the free-list pop yields 7 (entry 2 of 3) and the chain of
three allocations yields 7, 6, 5. -/
theorem free_list_lifo_witness :
    pipeline_read_page trivJ s4f 0 = (.ok fp4, s4f) ∧
    try_get_free_page_id trivJ s4f = (.ok (some 7), s4t) ∧
    (0 < (HeaderPageWrapper.from_raw_page fp4).get_free_list_size ∧
     7 = (HeaderPageWrapper.from_raw_page fp4).get_free_list_content
          ((HeaderPageWrapper.from_raw_page fp4).get_free_list_size - 1) ∧
     s4t.page_cache = insert_to_cache s4f.page_cache
       ((HeaderPageWrapper.from_raw_page fp4).set_free_list_size
          ((HeaderPageWrapper.from_raw_page fp4).get_free_list_size - 1)).toRaw) ∧
    (free_pages trivJ s0 [5, 6, 7]).1 = .ok () ∧
    (alloc_page_id trivJ (free_pages trivJ s0 [5, 6, 7]).2).1 = .ok 7 :=
  ⟨rfl, rfl, (free_list_lifo trivJ s4f fp4 s4f 7 s4t rfl rfl).1,
    ((free_list_lifo trivJ s4f fp4 s4f 7 s4t rfl rfl).2 5 6 7).1,
    ((free_list_lifo trivJ s4f fp4 s4f 7 s4t rfl rfl).2 5 6 7).2.1⟩

/-- C1: after `rollback` returns successfully the page cache is empty —
`get_from_cache` yields `none` for every page id — and the journal was
forwarded the rollback. -/
theorem rollback_clears_page_cache {J : Type} (ops : JournalOps J) (s : PHState J)
    (h : (rollback ops s).1 = .ok ()) :
    (∀ pid, get_from_cache (rollback ops s).2.page_cache pid = none) ∧
    (rollback ops s).2.journal = (ops.rollback s.journal).2 := by
  rcases hres : ops.rollback s.journal with ⟨r, j⟩
  simp only [rollback, hres] at h ⊢
  cases r with
  | error e => simp at h
  | ok u => exact ⟨fun pid => rfl, rfl⟩

/-- Witness for C1 at a concrete input: rolling back the fresh handler
over the concrete journal leaves an empty cache. -/
theorem rollback_clears_page_cache_witness :
    (rollback jOps s9).1 = .ok () ∧
    get_from_cache (rollback jOps s9).2.page_cache 0 = none :=
  ⟨rfl, (rollback_clears_page_cache jOps s9 rfl).1 0⟩

/-- C2: the write pipeline appends to the journal strictly before
touching the cache: a failed `append_raw_page` aborts the pipeline with
the journal error and leaves the page cache exactly as it was, while a
successful append is followed by the cache insert. -/
theorem pipeline_write_journal_first {J : Type} (ops : JournalOps J) (s : PHState J)
    (page : RawPage) :
    (∀ e j, ops.append_raw_page s.journal page = (.error e, j) →
      pipeline_write_page ops s page = (.error e, { s with journal := j })) ∧
    (∀ j, ops.append_raw_page s.journal page = (.ok (), j) →
      pipeline_write_page ops s page =
        (.ok (), { s with journal := j, page_cache := insert_to_cache s.page_cache page })) := by
  constructor
  · intro e j h
    simp [pipeline_write_page, h]
  · intro j h
    simp [pipeline_write_page, h]

/-- Witness for C2 at a concrete input: with a journal whose append
fails, the pipeline returns the error and the cache field is the
original (empty) cache. -/
theorem pipeline_write_journal_first_witness :
    failJ.append_raw_page s0.journal pageW = (.error .ioError, ()) ∧
    pipeline_write_page failJ s0 pageW = (.error .ioError, { s0 with journal := () }) :=
  ⟨rfl, (pipeline_write_journal_first failJ s0 pageW).1 .ioError () rfl⟩

/-- C8: `auto_start_transaction` is a three-case state machine: from
NoTrans it forwards `start_transaction` to the journal, enters DbAuto
and reports `auto_start = true`; from UserAuto with a Write request over
a Read journal transaction it upgrades the transaction and stays put
reporting `auto_start = false`; in every other case it changes nothing
and reports `auto_start = false`. -/
theorem auto_start_transaction_cases {J : Type} (ops : JournalOps J) (s : PHState J)
    (ty : TransactionType) :
    (∀ j, s.transaction_state = .noTrans →
      ops.start_transaction s.journal ty = (.ok (), j) →
      auto_start_transaction ops s ty =
        (.ok ⟨true⟩, { s with journal := j, transaction_state := .dbAuto })) ∧
    (∀ j, s.transaction_state = .userAuto → ty = .write →
      ops.transaction_type s.journal = some .read →
      ops.upgrade_read_transaction_to_write s.journal = (.ok (), j) →
      auto_start_transaction ops s ty = (.ok ⟨false⟩, { s with journal := j })) ∧
    ((s.transaction_state = .user ∨ s.transaction_state = .dbAuto ∨
        (s.transaction_state = .userAuto ∧
          ¬(ty = .write ∧ ops.transaction_type s.journal = some .read))) →
      auto_start_transaction ops s ty = (.ok ⟨false⟩, s)) := by
  refine ⟨?_, ?_, ?_⟩
  · intro j hstate h
    simp [auto_start_transaction, start_transaction, hstate, h]
  · intro j hstate hty htt h
    simp [auto_start_transaction, upgrade_read_transaction_to_write, transaction_type,
      hstate, hty, htt, h]
  · rintro (hstate | hstate | ⟨hstate, hne⟩)
    · simp [auto_start_transaction, hstate]
    · simp [auto_start_transaction, hstate]
    · simp only [auto_start_transaction, hstate, transaction_type]
      cases hty : ty with
      | read =>
        cases htt : ops.transaction_type s.journal with
        | none => rfl
        | some t => cases t <;> rfl
      | write =>
        cases htt : ops.transaction_type s.journal with
        | none => rfl
        | some t =>
          cases t with
          | read => exact absurd ⟨rfl, htt⟩ (hty ▸ hne)
          | write => rfl

/-- Witness for C8 at a concrete input: the fresh handler is in NoTrans,
so an auto start over the trivial journal starts a DbAuto transaction
and reports `auto_start = true`. -/
theorem auto_start_transaction_cases_witness :
    s0.transaction_state = .noTrans ∧
    auto_start_transaction trivJ s0 .write =
      (.ok ⟨true⟩, { s0 with journal := (), transaction_state := .dbAuto }) :=
  ⟨rfl, (auto_start_transaction_cases trivJ s0 .write).1 () rfl rfl⟩

/-- C10: `free_data_ticket` is total only when the ticket's slot is
live: on an absent slot it aborts through the unchecked unwrap (where
`get_doc_from_ticket` would instead report "not found"), and whenever it
does return successfully the returned bytes are the slot's stored
bytes. -/
theorem free_data_ticket_unwrap {J : Type} (ops : JournalOps J) (s : PHState J)
    (t : DataTicket) (raw : RawPage) (s1 : PHState J)
    (h1 : pipeline_read_page ops s t.pid = (.ok raw, s1)) :
    ((DataPageWrapper.from_raw raw).get t.index = none →
      free_data_ticket ops s t = (.error .panicked, s1) ∧
      get_doc_from_ticket ops s t = (.ok none, s1)) ∧
    (∀ b, (DataPageWrapper.from_raw raw).get t.index = some b →
      ∀ v s2, free_data_ticket ops s t = (.ok v, s2) → v = b) := by
  constructor
  · intro hnone
    constructor
    · simp [free_data_ticket, h1, hnone]
    · simp [get_doc_from_ticket, h1, hnone]
  · intro b hb v s2 hok
    simp only [free_data_ticket, h1, hb] at hok
    split at hok
    · exact absurd hok (by simp)
    · split at hok
      · exact absurd hok (by simp)
      · simp only [Prod.mk.injEq, Except.ok.injEq] at hok
        exact hok.1.symm

/-- Witness for C10 at a concrete input: ticket (1, 5) names an absent
slot on the fresh handler, and freeing it aborts where a get reports
"not found". -/
theorem free_data_ticket_unwrap_witness :
    pipeline_read_page jOps s9 1 = (.ok pageW, s9r) ∧
    (DataPageWrapper.from_raw pageW).get 5 = none ∧
    free_data_ticket jOps s9 ⟨1, 5⟩ = (.error .panicked, s9r) ∧
    get_doc_from_ticket jOps s9 ⟨1, 5⟩ = (.ok none, s9r) := by
  refine ⟨rfl, rfl, ?_, ?_⟩
  · exact ((free_data_ticket_unwrap jOps s9 ⟨1, 5⟩ pageW s9r rfl).1 rfl).1
  · exact ((free_data_ticket_unwrap jOps s9 ⟨1, 5⟩ pageW s9r rfl).1 rfl).2

end PoloDB

